import Mathlib

/-!
# Verification of `dataclassish` — field access and the recursive replace engine

Shallow embedding of the Python library `dataclassish`
(`src/dataclassish/_src/{api,types,flags,register_base,register_dataclass,
register_mapping,flag_compat}.py`).  The live package (`dataclassish/__init__.py`)
registers exactly the implementations of `register_base`, `register_dataclass`,
`register_mapping` and, through `dataclassish.flags`, those of `flag_compat`.

Python values are modelled by the inductive type `Val`:

* `Val.map`  — a `dict`/mapping, as an insertion-ordered association list of
  hashable keys (`Key`, either a string or an int) to values;
* `Val.dc`   — a dataclass instance: an ordered list of fields
  `(name, repr flag, value)`.  The `Field.type` attribute is not modelled: no
  operation in scope reads it;
* `Val.F`    — an instance of the leaf-wrapper `F` (`types.py`), a frozen
  dataclass with the single field `value` (its `repr` flag defaults to true);
* `Val.tup`  — a Python tuple (produced by `astuple`);
* `Val.int`, `Val.float`, `Val.str` — scalar leaves.  Floats are carried as a
  tagged integer: every float in scope is an integral literal compared only
  for equality with itself.

Errors raised by the library or its substrate are the constructors of `Err`;
each constructor is one Python exception, carrying the data that the Python
message interpolates.  Plum's dispatch (`@dispatch`) is modelled by matching
on the shape of the arguments.  Plum tests an argument against a parametric
annotation with beartype, whose O(1) strategy samples a single key-value
pair of a dict — the first — so the `Mapping[str, Any]` annotations are
modelled as `sampleStrKeyed`: the first pair's key must be a string, and a
mixed-key mapping whose first key is a string does match.  Keyword expansion
`type(obj)(**d)`, by contrast, genuinely checks every key of `d`
(`pyCallKwExpand`).  A call matched by no implementation returns
`Err.notFoundLookup` with the offending arguments, plum's
`NotFoundLookupError`.
-/

/-- A hashable Python key: every key appearing in scope is a string or an int. -/
inductive Key where
  | str (s : String)
  | int (n : Int)
deriving DecidableEq, Repr

/-- Whether a key is a Python `str` (the check performed by the
`Mapping[str, Any]` annotations). -/
def Key.isStr : Key → Bool
  | .str _ => true
  | .int _ => false

/-- The string carried by a string key (total for convenience; only evaluated
under an `isStr` guard). -/
def Key.strName : Key → String
  | .str s => s
  | .int _ => ""

/-- A Python value, restricted to the shapes the library distinguishes. -/
inductive Val where
  | int (n : Int)
  | float (q : Int)
  | str (s : String)
  | F (value : Val)
  | tup (elems : List Val)
  | map (entries : List (Key × Val))
  | dc (fields : List (String × Bool × Val))

/-- A raised Python exception, one constructor per distinct error source. -/
inductive Err where
  /-- `plum.NotFoundLookupError`: no registered implementation matches the
  runtime types of the listed positional arguments. -/
  | notFoundLookup (args : List Val)
  /-- `ValueError` with message `invalid keys {...}.` from the flat mapping
  `replace` (`register_mapping.py` line 64), carrying every offending key. -/
  | invalidKeys (keys : List String)
  /-- A `TypeError`, e.g. `keywords must be strings` from `type(obj)(**d)`
  with a non-string key in `d`, or an unexpected keyword in
  `dataclasses.replace`. -/
  | typeError (msg : String)
  /-- `KeyError` from `obj[k]` on a mapping without the key. -/
  | keyError (k : Key)
  /-- `AttributeError` from `getattr(obj, name)`. -/
  | attributeError (name : String)
  /-- `ValueError` `Do not use the AbstractFlag directly, only use
  subclasses.` (`flag_compat.py`). -/
  | abstractFlagError
  /-- `ValueError` `Fields {names} are in kwargs but are repr=False.`
  (`flag_compat.py`, `replace` under `FilterRepr`). -/
  | reprFieldsInKwargs (names : List String)
  /-- `ValueError` `Field {name} not found.` (`flag_compat.py`, `get_field`
  under `FilterRepr`). -/
  | fieldNotFound (name : String)
  /-- `ValueError` `Field {name} is repr=False.` (`flag_compat.py`,
  `get_field` under `FilterRepr`). -/
  | fieldIsReprFalse (name : String)
  /-- `ValueError` raised by `zip(..., strict=True)` on unequal lengths. -/
  | zipStrict

/-- The key, as the Python value it prints as in error messages. -/
def keyVal : Key → Val
  | .str s => .str s
  | .int n => .int n

/-- `d[k]` lookup in an association list (first match, as in a `dict` whose
keys are unique). -/
def lookupKV (l : List (Key × Val)) (k : Key) : Option Val :=
  (l.find? (fun kv => kv.1 == k)).map (·.2)

/-- `k in d` for an association list. -/
def hasKey (l : List (Key × Val)) (k : Key) : Bool :=
  l.any (fun kv => kv.1 == k)

/-- Lookup in a string-keyed association list (Python `**kwargs`). -/
def lookupStr (l : List (String × Val)) (k : String) : Option Val :=
  (l.find? (fun kv => kv.1 == k)).map (·.2)

/-- View `**kwargs` as mapping entries. -/
def strEntries (kw : List (String × Val)) : List (Key × Val) :=
  kw.map (fun kv => (Key.str kv.1, kv.2))

/-- A string-keyed entry list read back as `**kwargs` (meaningful only under
a `strKeyed` guard, i.e. after a successful `**`-expansion). -/
def asKwargs (l : List (Key × Val)) : List (String × Val) :=
  l.map (fun kv => (kv.1.strName, kv.2))

/-- Python `{**base, **upd}` (equally `dict(base) | upd`): the keys of `base`
in order with values overridden by `upd` where present, then the keys of
`upd` absent from `base`, in `upd`'s order. -/
def dictUnion (base upd : List (Key × Val)) : List (Key × Val) :=
  base.map (fun kv =>
    match lookupKV upd kv.1 with
    | some v => (kv.1, v)
    | none => kv)
  ++ upd.filter (fun kv => !hasKey base kv.1)

/-- All keys of a mapping are strings (the check performed by the
`Mapping[str, Any]` annotations, and by `**`-expansion). -/
def strKeyed (m : List (Key × Val)) : Bool :=
  m.all (fun kv => kv.1.isStr)

/-- Beartype's O(1) containment check of a dict against `Mapping[str, Any]`
(the check plum runs at dispatch): a single key-value pair — for a dict,
the first — is sampled and its key tested; an empty mapping passes
vacuously. -/
def sampleStrKeyed (m : List (Key × Val)) : Bool :=
  match m with
  | [] => true
  | kv :: _ => kv.1.isStr

/-- `type(obj)(**d)`: calling a mapping type with `d` double-star expanded.
Keyword expansion demands string keys; otherwise Python raises
`TypeError: keywords must be strings`. -/
def pyCallKwExpand (d : List (Key × Val)) : Except Err (List (Key × Val)) :=
  if strKeyed d then .ok d
  else .error (.typeError "keywords must be strings")

/-- `getattr(obj, name)` for the shapes in scope: a dataclass instance reads
the named field, an `F` instance exposes `value`, anything else raises
`AttributeError`. -/
def pyGetAttr (obj : Val) (name : String) : Except Err Val :=
  match obj with
  | .dc fs =>
    match fs.find? (fun f => f.1 == name) with
    | some f => .ok f.2.2
    | none => .error (.attributeError name)
  | .F v => if name == "value" then .ok v else .error (.attributeError name)
  | _ => .error (.attributeError name)

/-- Dispatched `get_field(obj, k)`.  The mapping implementation
(`register_mapping.py` line 17, registered at `precedence=1`) wins for any
mapping and returns `obj[k]`; otherwise the generic implementation
(`register_base.py` line 20, also covering dataclasses via
`register_dataclass.py` line 26) requires a string name and returns
`getattr(obj, k)`; a non-string key on a non-mapping matches nothing. -/
def getField (obj : Val) (k : Key) : Except Err Val :=
  match obj with
  | .map m =>
    match lookupKV m k with
    | some v => .ok v
    | none => .error (.keyError k)
  | _ =>
    match k with
    | .str s => pyGetAttr obj s
    | _ => .error (.notFoundLookup [obj, keyVal k])

/-- `extra_keys = set(kwargs) - set(obj)` (`register_mapping.py` line 62): the
keyword names absent from the mapping (keyword names are unique, so the list
is the set, in keyword order). -/
def extraKeys (m : List (Key × Val)) (kwargs : List (String × Val)) : List String :=
  (kwargs.map (·.1)).filter (fun k => !hasKey m (.str k))

/-- The flat mapping replace body (`register_mapping.py` lines 62–67): a
non-empty `extra_keys` is rejected whole via
`ValueError(f"invalid keys {extra_keys}.")`, else the mapping is rebuilt as
`type(obj)(**{**obj, **kwargs})`. -/
def mappingReplaceKwEntries (m : List (Key × Val)) (kwargs : List (String × Val)) :
    Except Err (List (Key × Val)) :=
  if (extraKeys m kwargs).isEmpty then pyCallKwExpand (dictUnion m (strEntries kwargs))
  else .error (.invalidKeys (extraKeys m kwargs))

/-- `dataclasses.replace(obj, **kwargs)` on a plain dataclass: a keyword that
is not a field name raises `TypeError` (unexpected keyword argument to
`__init__`), else a new instance with those fields' values overwritten.  All
modelled fields are `init=True` without `__post_init__`. -/
def dcReplaceFields (fs : List (String × Bool × Val)) (kwargs : List (String × Val)) :
    Except Err (List (String × Bool × Val)) :=
  if kwargs.all (fun kv => fs.any (fun f => f.1 == kv.1)) then
    .ok (fs.map (fun f =>
      match lookupStr kwargs f.1 with
      | some v => (f.1, f.2.1, v)
      | none => f))
  else .error (.typeError "unexpected keyword argument")

/-- Dispatched flat `replace(obj, **kwargs)`.  Candidates: the mapping
implementation (`register_mapping.py` line 37, signature
`Mapping[str, Any]`, matched when the sampled first pair has a string key —
so a mixed-key mapping with a string first key does reach the body, whose
`type(obj)(**...)` rebuild then fails on the remaining keys) and the
dataclass implementation (`register_dataclass.py` line 53,
`dataclasses.replace`; an `F` instance is itself a frozen dataclass with the
single field `value`).  Anything else is a `NotFoundLookupError`. -/
def replaceKw (obj : Val) (kwargs : List (String × Val)) : Except Err Val :=
  match obj with
  | .map m =>
    if sampleStrKeyed m then
      (mappingReplaceKwEntries m kwargs).map Val.map
    else .error (.notFoundLookup (obj :: kwargs.map (·.2)))
  | .dc fs => (dcReplaceFields fs kwargs).map Val.dc
  | .F v =>
    if kwargs.all (fun kv => kv.1 == "value") then
      .ok (.F (match lookupStr kwargs "value" with
               | some v' => v'
               | none => v))
    else .error (.typeError "unexpected keyword argument")
  | _ => .error (.notFoundLookup (obj :: kwargs.map (·.2)))

mutual

/-- Dispatched recursive `replace(obj, fs)` (`register_mapping.py` line 83,
`register_dataclass.py` line 77).  Both implementations require
`fs : Mapping[str, Any]`, checked by sampling `fs`'s first pair; an `obj`
that is neither mapping- nor dataclass-shaped matches no implementation.
The mapping implementation resolves every entry with
`_recursive_replace_mapping_helper` and rebuilds directly via
`type(obj)(**(dict(obj) | kwargs))` (line 120), whose `**`-expansion
rejects any non-string key of the merged dict; the dataclass implementation
resolves every entry with `_recursive_replace_helper` and calls the
dispatched flat `replace(obj, **kwargs)` (line 125), whose call-site
`**`-expansion likewise rejects any non-string key of `kwargs`. -/
def replaceFs (obj : Val) (fs : List (Key × Val)) : Except Err Val :=
  if sampleStrKeyed fs then
    match obj with
    | .map m =>
      (resolveEntries obj fs).bind (fun kwargs =>
        (pyCallKwExpand (dictUnion m kwargs)).map Val.map)
    | .dc _ =>
      (resolveEntries obj fs).bind (fun kwargs =>
        (pyCallKwExpand kwargs).bind (fun kw => replaceKw obj (asKwargs kw)))
    | .F _ =>
      (resolveEntries obj fs).bind (fun kwargs =>
        (pyCallKwExpand kwargs).bind (fun kw => replaceKw obj (asKwargs kw)))
    | _ => .error (.notFoundLookup [obj, .map fs])
  else .error (.notFoundLookup [obj, .map fs])
termination_by (sizeOf fs, 1)

/-- The dict comprehension
`kwargs = {k: _recursive_replace_*_helper(obj, k, v) for k, v in fs.items()}`
shared by both recursive implementations, propagating the first raised
exception.  Keys flow through unchanged: the helpers are plain functions,
so their `k: str` annotation is not enforced at runtime. -/
def resolveEntries (obj : Val) (fs : List (Key × Val)) :
    Except Err (List (Key × Val)) :=
  match fs with
  | [] => .ok []
  | (k, v) :: rest =>
    (recursiveReplaceHelper obj k v).bind (fun r =>
      (resolveEntries obj rest).map (fun rs => (k, r) :: rs))
termination_by (sizeOf fs, 0)

/-- `_recursive_replace_helper` (`register_base.py` lines 46–53) and
`_recursive_replace_mapping_helper` (`register_mapping.py` lines 70–79),
which have the same body: an `F` wrapper resolves to its `value` verbatim
with no recursion; a mapping-shaped `v` resolves to
`replace(get_field(obj, k), v)`, both calls dispatched; any other value
resolves to itself. -/
def recursiveReplaceHelper (obj : Val) (k : Key) (v : Val) : Except Err Val :=
  match v with
  | .F x => .ok x
  | .map fs => (getField obj k).bind (fun cur => replaceFs cur fs)
  | _ => .ok v
termination_by (sizeOf v, 2)

end

/-! ## Accessor operations -/

/-- A `dataclasses.Field` as far as the library reads it: its `name` and its
`repr` flag.  (`type` is set but never read by any operation in scope.) -/
structure FieldD where
  name : String
  repr : Bool
deriving DecidableEq, Repr

/-- Dispatched `fields(obj)`.  The dataclass implementation
(`register_dataclass.py` line 133) returns `dataclasses.fields(obj)`; the
mapping implementation (`register_mapping.py` line 128, signature
`Mapping[str, Any]`) synthesizes one `field(kw_only=True)` per key in
iteration order, whose `repr` flag therefore keeps its default `True`.  `F`
instances are dataclasses with the single field `value`.  Anything else
matches no implementation.  The string-key gate here is the exhaustive
check: the sampled beartype check can also admit a mixed-key mapping whose
first key is a string, but that path would synthesize a `Field` whose
`name` is not a string, which `FieldD` cannot carry — no operation in scope
exercises it, and no theorem below relies on this branch. -/
def fields (obj : Val) : Except Err (List FieldD) :=
  match obj with
  | .map m =>
    if strKeyed m then
      .ok (m.map (fun kv => ⟨kv.1.strName, true⟩))
    else .error (.notFoundLookup [obj])
  | .dc fs => .ok (fs.map (fun f => ⟨f.1, f.2.1⟩))
  | .F _ => .ok [⟨"value", true⟩]
  | _ => .error (.notFoundLookup [obj])

mutual

/-- `dataclasses._asdict_inner`: dataclass instances become dicts of their
converted field values, dicts are rebuilt with converted keys and values,
tuples recurse elementwise, and other values are deep-copied (the identity on
the modelled value). -/
def asdictInner : Val → Val
  | .int n => .int n
  | .float q => .float q
  | .str s => .str s
  | .F v => .map [(Key.str "value", asdictInner v)]
  | .tup vs => .tup (asdictInnerList vs)
  | .map m => .map (asdictInnerEntries m)
  | .dc fs => .map (asdictInnerFields fs)

def asdictInnerEntries : List (Key × Val) → List (Key × Val)
  | [] => []
  | (k, v) :: rest => (k, asdictInner v) :: asdictInnerEntries rest

def asdictInnerFields : List (String × Bool × Val) → List (Key × Val)
  | [] => []
  | (n, _, v) :: rest => (Key.str n, asdictInner v) :: asdictInnerFields rest

def asdictInnerList : List Val → List Val
  | [] => []
  | v :: rest => asdictInner v :: asdictInnerList rest

end

/-- Dispatched `asdict(obj)` with the default `dict_factory=dict`.  The
mapping implementation (`register_mapping.py` line 154, signature
`Mapping[Hashable, Any]`) returns `dict_factory(obj)`, a shallow copy; the
dataclass implementation (`register_dataclass.py` line 160) returns
`dataclasses.asdict(obj)`, which converts recursively. -/
def asdict (obj : Val) : Except Err (List (Key × Val)) :=
  match obj with
  | .map m => .ok m
  | .dc fs => .ok (asdictInnerFields fs)
  | .F v => .ok [(Key.str "value", asdictInner v)]
  | _ => .error (.notFoundLookup [obj])

mutual

/-- `dataclasses._astuple_inner`: like `_asdict_inner` but dataclass
instances become tuples of their converted field values. -/
def astupleInner : Val → Val
  | .int n => .int n
  | .float q => .float q
  | .str s => .str s
  | .F v => .tup [astupleInner v]
  | .tup vs => .tup (astupleInnerList vs)
  | .map m => .map (astupleInnerEntries m)
  | .dc fs => .tup (astupleInnerFieldVals fs)

def astupleInnerEntries : List (Key × Val) → List (Key × Val)
  | [] => []
  | (k, v) :: rest => (k, astupleInner v) :: astupleInnerEntries rest

def astupleInnerFieldVals : List (String × Bool × Val) → List Val
  | [] => []
  | (_, _, v) :: rest => astupleInner v :: astupleInnerFieldVals rest

def astupleInnerList : List Val → List Val
  | [] => []
  | v :: rest => astupleInner v :: astupleInnerList rest

end

/-- Dispatched `astuple(obj)` with the default `tuple_factory=tuple`.  The
mapping implementation (`register_mapping.py` line 185, signature
`Mapping[str, Any]`, matched by the sampled first pair) returns
`tuple_factory(obj.values())`, shallow; the dataclass implementation
(`register_dataclass.py` line 191) returns `dataclasses.astuple(obj)`,
recursive. -/
def astuple (obj : Val) : Except Err (List Val) :=
  match obj with
  | .map m =>
    if sampleStrKeyed m then .ok (m.map (·.2))
    else .error (.notFoundLookup [obj])
  | .dc fs => .ok (astupleInnerFieldVals fs)
  | .F v => .ok [astupleInner v]
  | _ => .error (.notFoundLookup [obj])

/-- Dispatched `field_keys(obj)`: the mapping implementation
(`register_mapping.py` line 210, `Mapping[Hashable, Any]`) returns
`obj.keys()`; the generic one (`register_base.py` line 61) returns
`tuple(f.name for f in fields(obj))`, propagating the `fields` dispatch
failure on leaf values. -/
def fieldKeys (obj : Val) : Except Err (List Key) :=
  match obj with
  | .map m => .ok (m.map (·.1))
  | _ => (fields obj).map (fun fs => fs.map (fun f => Key.str f.name))

/-- Dispatched `field_values(obj)`: the mapping implementation
(`register_mapping.py` line 230) returns `obj.values()`; the generic one
(`register_base.py` line 87) returns
`tuple(getattr(obj, f.name) for f in fields(obj))`. -/
def fieldValues (obj : Val) : Except Err (List Val) :=
  match obj with
  | .map m => .ok (m.map (·.2))
  | _ =>
    (fields obj).bind (fun fs =>
      fs.mapM (fun f => pyGetAttr obj f.name))

/-- Dispatched `field_items(obj)`: the mapping implementation
(`register_mapping.py` line 250) returns `obj.items()`; the generic one
(`register_base.py` line 113) returns
`tuple((f.name, getattr(obj, f.name)) for f in fields(obj))`. -/
def fieldItems (obj : Val) : Except Err (List (Key × Val)) :=
  match obj with
  | .map m => .ok m
  | _ =>
    (fields obj).bind (fun fs =>
      fs.mapM (fun f => (pyGetAttr obj f.name).map (fun v => (Key.str f.name, v))))

/-! ## Behavior-variant flags (`flag_compat.py`)

The flag classes of `dataclassish.flags`: the non-instantiable markers
`AbstractFlag`, `NoFlag` and `FilterRepr` are pure dispatch discriminants, so
they are embedded as a three-element inductive.  Plum resolves
`type[NoFlag]`/`type[FilterRepr]` as more specific than `type[AbstractFlag]`,
so each concrete flag reaches its own implementation and only the abstract
base reaches the raising one. -/
inductive FlagType where
  | abstractFlag
  | noFlag
  | filterRepr
deriving DecidableEq, Repr

/-- Flag-qualified `replace(flag, obj, **kwargs)` (`flag_compat.py` lines 29,
213, 354).  Under `FilterRepr`, `[f.name for f in fields(obj) if f.name in
kwargs if not f.repr]` must be empty, else a `ValueError` names every
offending field; then the unqualified `replace` runs. -/
def replaceFlag (flag : FlagType) (obj : Val) (kwargs : List (String × Val)) :
    Except Err Val :=
  match flag with
  | .abstractFlag => .error .abstractFlagError
  | .noFlag => replaceKw obj kwargs
  | .filterRepr =>
    (fields obj).bind (fun fs =>
      let bad := (fs.filter (fun f =>
        (kwargs.any (fun kv => kv.1 == f.name)) && !f.repr)).map (·.name)
      if bad.isEmpty then replaceKw obj kwargs
      else .error (.reprFieldsInKwargs bad))

/-- Flag-qualified `fields(flag, obj)` (`flag_compat.py` lines 53, 231, 400).
Under `FilterRepr` the fields with `repr=False` are dropped. -/
def fieldsFlag (flag : FlagType) (obj : Val) : Except Err (List FieldD) :=
  match flag with
  | .abstractFlag => .error .abstractFlagError
  | .noFlag => fields obj
  | .filterRepr => (fields obj).map (fun fs => fs.filter (·.repr))

/-- Flag-qualified `field_keys(flag, obj)` (`flag_compat.py` lines 137, 299,
561).  Under `FilterRepr`:
`tuple(k for k, f in zip(field_keys(obj), fields(obj), strict=True) if f.repr)`. -/
def fieldKeysFlag (flag : FlagType) (obj : Val) : Except Err (List Key) :=
  match flag with
  | .abstractFlag => .error .abstractFlagError
  | .noFlag => fieldKeys obj
  | .filterRepr =>
    (fieldKeys obj).bind (fun ks =>
      (fields obj).bind (fun fs =>
        if ks.length == fs.length then
          .ok (((ks.zip fs).filter (fun p => p.2.repr)).map (·.1))
        else .error .zipStrict))

/-- Flag-qualified `field_values(flag, obj)` (`flag_compat.py` lines 161, 316,
592), filtering by the zipped field's `repr` under `FilterRepr`. -/
def fieldValuesFlag (flag : FlagType) (obj : Val) : Except Err (List Val) :=
  match flag with
  | .abstractFlag => .error .abstractFlagError
  | .noFlag => fieldValues obj
  | .filterRepr =>
    (fieldValues obj).bind (fun vs =>
      (fields obj).bind (fun fs =>
        if vs.length == fs.length then
          .ok (((vs.zip fs).filter (fun p => p.2.repr)).map (·.1))
        else .error .zipStrict))

/-- Flag-qualified `field_items(flag, obj)` (`flag_compat.py` lines 185, 333,
625), filtering by the zipped field's `repr` under `FilterRepr`. -/
def fieldItemsFlag (flag : FlagType) (obj : Val) : Except Err (List (Key × Val)) :=
  match flag with
  | .abstractFlag => .error .abstractFlagError
  | .noFlag => fieldItems obj
  | .filterRepr =>
    (fieldItems obj).bind (fun kvs =>
      (fields obj).bind (fun fs =>
        if kvs.length == fs.length then
          .ok (((kvs.zip fs).filter (fun p => p.2.repr)).map (·.1))
        else .error .zipStrict))

/-- Flag-qualified `asdict(flag, obj)` (`flag_compat.py` lines 77, 250, 431).
Under `FilterRepr`: `all_dict = asdict(obj)`, then
`dict_factory([(k, all_dict[k]) for k in field_keys(flag, obj)])`,
a `KeyError` surfacing if a kept key were absent from `all_dict`. -/
def asdictFlag (flag : FlagType) (obj : Val) : Except Err (List (Key × Val)) :=
  match flag with
  | .abstractFlag => .error .abstractFlagError
  | .noFlag => asdict obj
  | .filterRepr =>
    (asdict obj).bind (fun allDict =>
      (fieldKeysFlag .filterRepr obj).bind (fun keep =>
        keep.mapM (fun k =>
          match lookupKV allDict k with
          | some v => .ok (k, v)
          | none => .error (.keyError k))))

/-- Flag-qualified `astuple(flag, obj)` (`flag_compat.py` lines 107, 276, 470).
Under `FilterRepr`: zip `astuple(obj)` with the fields' `repr` flags
(`strict=True`) and keep the flagged-true entries. -/
def astupleFlag (flag : FlagType) (obj : Val) : Except Err (List Val) :=
  match flag with
  | .abstractFlag => .error .abstractFlagError
  | .noFlag => astuple obj
  | .filterRepr =>
    (astuple obj).bind (fun tup =>
      (fields obj).bind (fun fs =>
        if tup.length == fs.length then
          .ok (((tup.zip fs).filter (fun p => p.2.repr)).map (·.1))
        else .error .zipStrict))

/-- Flag-qualified `get_field(flag, obj, field_name)`.  Only `FilterRepr` has
an implementation (`flag_compat.py` line 509): the first field named
`field_name` decides — absent: `ValueError "Field {name} not found."`;
`repr=False`: `ValueError "Field {name} is repr=False."`; else the
unqualified `get_field(obj, field_name)`.  For the other flag classes no
three-argument `get_field` implementation is registered. -/
def getFieldFlag (flag : FlagType) (obj : Val) (name : String) : Except Err Val :=
  match flag with
  | .filterRepr =>
    (fields obj).bind (fun fs =>
      match (fs.filter (fun f => f.name == name)).map (·.repr) with
      | [] => .error (.fieldNotFound name)
      | b :: _ =>
        if b then getField obj (.str name)
        else .error (.fieldIsReprFalse name))
  | _ => .error (.notFoundLookup [obj, .str name])

/-! ## Object identity

Python `==` on containers ignores object identity, so `Val` carries no object
ids and equality of `Val`s is Python `==`.  The two claims about identity
("a distinct container object") concern exactly the code paths that end in a
container constructor call — `type(obj)(**{**obj, **kwargs})` in the flat
mapping replace and `dict_factory(obj)` in the mapping `asdict` — and a
Python constructor call always returns an object whose id differs from every
live object.  For those two paths the construction is made explicit: a
`PyDict` is a mapping together with its id, and the constructor draws a fresh
id from a counter. -/
structure PyDict where
  oid : Nat
  entries : List (Key × Val)

/-- `dict(...)` / `type(obj)(...)`: constructs a new dict object carrying the
given entries under a fresh id, advancing the id counter. -/
def pyDictCtor (entries : List (Key × Val)) (ctr : Nat) : PyDict × Nat :=
  (⟨ctr, entries⟩, ctr + 1)

/-- The flat mapping `replace` (`register_mapping.py` lines 62–67) at the
identity level: the same validation and merge as `mappingReplaceKwEntries`,
with the final `type(obj)(**{**obj, **kwargs})` allocating the result. -/
def replaceKwAlloc (obj : PyDict) (kwargs : List (String × Val)) (ctr : Nat) :
    Except Err (PyDict × Nat) :=
  (mappingReplaceKwEntries obj.entries kwargs).map (fun m' => pyDictCtor m' ctr)

/-- The mapping `asdict` (`register_mapping.py` line 177) at the identity
level: `dict_factory(obj)` with the default factory is `dict(obj)`, a
shallow copy into a newly allocated dict. -/
def asdictAlloc (obj : PyDict) (ctr : Nat) : PyDict × Nat :=
  pyDictCtor obj.entries ctr

/-! ## Shape predicates and basic lemmas -/

/-- `isinstance(v, F)`. -/
def Val.isFBox : Val → Bool
  | .F _ => true
  | _ => false

/-- `isinstance(v, Mapping)`. -/
def Val.isMapping : Val → Bool
  | .map _ => true
  | _ => false

theorem strEntries_strKeyed (kw : List (String × Val)) :
    strKeyed (strEntries kw) = true := by
  induction kw with
  | nil => rfl
  | cons kv rest ih => simpa [strKeyed, strEntries, Key.isStr] using ih

theorem lookupKV_nil (k : Key) : lookupKV [] k = none := rfl

/-- An exhaustively string-keyed mapping passes the sampled check. -/
theorem sampleStrKeyed_of_strKeyed (m : List (Key × Val))
    (h : strKeyed m = true) : sampleStrKeyed m = true := by
  cases m with
  | nil => rfl
  | cons kv rest =>
    simp only [strKeyed, List.all_cons, Bool.and_eq_true] at h
    simpa [sampleStrKeyed] using h.1

theorem dictUnion_nil (m : List (Key × Val)) : dictUnion m [] = m := by
  simp [dictUnion, lookupKV]

/-- The base part of `{**base, **upd}` keeps `base`'s keys in place. -/
theorem dictUnion_keys (base upd : List (Key × Val)) :
    (dictUnion base upd).take base.length = base.map (fun kv =>
      match lookupKV upd kv.1 with
      | some v => (kv.1, v)
      | none => kv) := by
  simp [dictUnion, List.take_append_eq_append_take]

theorem strKeyed_dictUnion (base upd : List (Key × Val))
    (hb : strKeyed base = true) (hu : strKeyed upd = true) :
    strKeyed (dictUnion base upd) = true := by
  simp only [strKeyed, dictUnion, List.all_append, Bool.and_eq_true,
    List.all_eq_true] at *
  refine ⟨fun x hx => ?_, fun x hx => ?_⟩
  · rcases List.mem_map.1 hx with ⟨kv, hkv, rfl⟩
    cases h : lookupKV upd kv.1 <;> simpa [h] using hb kv hkv
  · exact hu x (List.mem_of_mem_filter hx)

theorem strKeyed_dictUnion_false (base upd : List (Key × Val))
    (hb : strKeyed base = false) :
    strKeyed (dictUnion base upd) = false := by
  rcases List.all_eq_false.1 hb with ⟨kv, hkv, hf⟩
  apply List.all_eq_false.2
  refine ⟨match lookupKV upd kv.1 with
          | some v => (kv.1, v)
          | none => kv, ?_, ?_⟩
  · apply List.mem_append_left
    exact List.mem_map.2 ⟨kv, hkv, rfl⟩
  · cases h : lookupKV upd kv.1 <;> simpa [h] using hf

/-- With no extra keys, the appended part of `{**obj, **kwargs}` is empty:
every keyword key already occurs in the mapping. -/
theorem dictUnion_no_extra (m : List (Key × Val)) (kwargs : List (String × Val))
    (h : extraKeys m kwargs = []) :
    (strEntries kwargs).filter (fun kv => !hasKey m kv.1) = [] := by
  induction kwargs with
  | nil => rfl
  | cons kv rest ih =>
    cases hk : hasKey m (.str kv.1) with
    | false => simp [extraKeys, List.filter_cons, hk] at h
    | true =>
      have h' : extraKeys m rest = [] := by
        simpa [extraKeys, List.filter_cons, hk] using h
      simpa [strEntries, List.filter_cons, hk] using ih h'

/-- The mapping, with the keyword keys' values overwritten in place: the
result of a valid flat mapping replace. -/
def overwriteEntries (m : List (Key × Val)) (kwargs : List (String × Val)) :
    List (Key × Val) :=
  m.map (fun kv =>
    match lookupKV (strEntries kwargs) kv.1 with
    | some v => (kv.1, v)
    | none => kv)

theorem strKeyed_overwriteEntries (m : List (Key × Val)) (kwargs : List (String × Val))
    (hm : strKeyed m = true) : strKeyed (overwriteEntries m kwargs) = true := by
  simp only [strKeyed, overwriteEntries, List.all_eq_true] at *
  intro x hx
  rcases List.mem_map.1 hx with ⟨kv, hkv, rfl⟩
  cases h : lookupKV (strEntries kwargs) kv.1 <;> simpa [h] using hm kv hkv

theorem dictUnion_singleton_absent (m : List (Key × Val)) (key : Key) (v : Val)
    (h : hasKey m key = false) : dictUnion m [(key, v)] = m ++ [(key, v)] := by
  have hmap : m.map (fun kv =>
      match lookupKV [(key, v)] kv.1 with
      | some w => (kv.1, w)
      | none => kv) = m := by
    induction m with
    | nil => rfl
    | cons kv rest ih =>
      simp only [hasKey, List.any_cons, Bool.or_eq_false_iff] at h
      have hne : (key == kv.1) = false := by
        have := h.1
        simp only [beq_eq_false_iff_ne] at this ⊢
        exact fun e => this e.symm
      simp only [List.map_cons, lookupKV, List.find?_cons, hne, cond_false,
        List.find?_nil, Option.map_none']
      exact congrArg (kv :: ·) (ih h.2)
  unfold dictUnion
  rw [hmap]
  simp [List.filter_cons, h]

theorem overwriteEntries_nil (m : List (Key × Val)) : overwriteEntries m [] = m := by
  simp [overwriteEntries, lookupKV, strEntries]

theorem dcReplaceFields_nil (fs : List (String × Bool × Val)) :
    dcReplaceFields fs [] = .ok fs := by
  simp [dcReplaceFields, lookupStr]

/-- A valid flat mapping replace is the original with the keyword values
overwritten in place. -/
theorem mappingReplaceKwEntries_ok (m : List (Key × Val)) (kwargs : List (String × Val))
    (hm : strKeyed m = true) (h : extraKeys m kwargs = []) :
    mappingReplaceKwEntries m kwargs = .ok (overwriteEntries m kwargs) := by
  have h3 : dictUnion m (strEntries kwargs) = overwriteEntries m kwargs := by
    unfold dictUnion overwriteEntries
    rw [dictUnion_no_extra m kwargs h, List.append_nil]
  rw [mappingReplaceKwEntries, h, h3]
  simp [pyCallKwExpand, strKeyed_overwriteEntries m kwargs hm]

/-- `isinstance(v, DataclassInstance)`: the protocol holds of anything with
`__dataclass_fields__`, i.e. dataclass instances — including the frozen
dataclass `F`. -/
def Val.isDataclass : Val → Bool
  | .dc _ => true
  | .F _ => true
  | _ => false

/-! ## The claims -/

/-- The example mapping of spec §8 and the docstrings:
`p = {"a": 1, "b": 2.0, "c": {"aa": 3, "bb": 4}}`. -/
def pExample : Val :=
  .map [(.str "a", .int 1), (.str "b", .float 2),
    (.str "c", .map [(.str "aa", .int 3), (.str "bb", .int 4)])]

set_option maxRecDepth 100000 in
set_option maxHeartbeats 1000000 in
unseal replaceFs resolveEntries recursiveReplaceHelper in
/-- **C1**: `replace(p, {"c": {"aa": 6}})` on
`p = {"a": 1, "b": 2.0, "c": {"aa": 3, "bb": 4}}` returns
`{"a": 1, "b": 2.0, "c": {"aa": 6, "bb": 4}}`: a nested-changes entry whose
value is mapping-shaped is resolved by recursively calling `replace` on the
current value of that key — merging into it rather than overwriting it. -/
theorem replace_nested_mapping_merges :
    replaceFs pExample [(.str "c", .map [(.str "aa", .int 6)])] =
      .ok (.map [(.str "a", .int 1), (.str "b", .float 2),
        (.str "c", .map [(.str "aa", .int 6), (.str "bb", .int 4)])])
    ∧ ∀ (obj : Val) (k : Key) (fs : List (Key × Val)),
        recursiveReplaceHelper obj k (.map fs) =
          (getField obj k).bind (fun cur => replaceFs cur fs) :=
  ⟨rfl, by intro obj k fs; simp [recursiveReplaceHelper]⟩

set_option maxRecDepth 100000 in
set_option maxHeartbeats 1000000 in
unseal replaceFs resolveEntries recursiveReplaceHelper in
/-- **C2**: a nested-changes entry `(k, F(x))` resolves to `x` verbatim, with
no recursion, even when `x` is itself a mapping; concretely
`replace(p, {"c": F({"aa": 6, "bb": {"d": 7}})})` replaces `c` wholesale with
the wrapped mapping, unexamined. -/
theorem wrapper_stops_recursion :
    (∀ (obj : Val) (k : Key) (x : Val),
        recursiveReplaceHelper obj k (.F x) = .ok x)
    ∧ replaceFs pExample
        [(.str "c", .F (.map [(.str "aa", .int 6),
          (.str "bb", .map [(.str "d", .int 7)])]))] =
      .ok (.map [(.str "a", .int 1), (.str "b", .float 2),
        (.str "c", .map [(.str "aa", .int 6),
          (.str "bb", .map [(.str "d", .int 7)])])]) :=
  ⟨by intro obj k x; simp [recursiveReplaceHelper], rfl⟩

set_option maxRecDepth 100000 in
set_option maxHeartbeats 1000000 in
unseal replaceFs resolveEntries recursiveReplaceHelper in
/-- **C3**: recursing with a mapping-shaped change value into a current value
that is neither record- nor mapping-shaped fails with the dispatch
substrate's `NotFoundLookupError`; concretely
`replace(p, {"c": {"aa": 6, "bb": {"d": 7}}})` fails because it attempts
`replace(4, {"d": 7})` and `4` is a plain scalar. -/
theorem scalar_merge_raises_not_found :
    (∀ (v : Val) (fs : List (Key × Val)), Val.isMapping v = false →
        Val.isDataclass v = false →
        replaceFs v fs = .error (.notFoundLookup [v, .map fs]))
    ∧ replaceFs pExample
        [(.str "c", .map [(.str "aa", .int 6),
          (.str "bb", .map [(.str "d", .int 7)])])] =
      .error (.notFoundLookup [.int 4, .map [(.str "d", .int 7)]]) := by
  constructor
  · intro v fs h1 h2
    cases v with
    | map m => simp [Val.isMapping] at h1
    | dc fs' => simp [Val.isDataclass] at h2
    | F x => simp [Val.isDataclass] at h2
    | int n => simp [replaceFs, ite_self]
    | float q => simp [replaceFs, ite_self]
    | str s => simp [replaceFs, ite_self]
    | tup vs => simp [replaceFs, ite_self]
  · rfl

/-- **C3 witness**: the not-found failure at the concrete inner call
`replace(4, {"d": 7})`. -/
theorem scalar_merge_raises_not_found_witness :
    replaceFs (.int 4) [(.str "d", .int 7)] =
      .error (.notFoundLookup [.int 4, .map [(.str "d", .int 7)]]) :=
  scalar_merge_raises_not_found.1 (.int 4) [(.str "d", .int 7)] rfl rfl

set_option maxRecDepth 100000 in
set_option maxHeartbeats 1000000 in
unseal replaceFs resolveEntries recursiveReplaceHelper in
/-- **C4 counterexample**: `replace({"a": 1}, {"b": 2})` — the key `"b"` is
absent from the mapping, yet the nested replace returns
`{"a": 1, "b": 2}` instead of the invalid-keys rejection the claim
predicts: `register_mapping.py` line 120 rebuilds via
`type(obj)(**(dict(obj) | kwargs))` without calling the flat `replace`. -/
theorem nested_unknown_key_cex :
    replaceFs (.map [(.str "a", .int 1)]) [(.str "b", .int 2)] =
      .ok (.map [(.str "a", .int 1), (.str "b", .int 2)])
    ∧ replaceFs (.map [(.str "a", .int 1)]) [(.str "b", .int 2)] ≠
      .error (.invalidKeys ["b"]) :=
  ⟨rfl, by
    intro h
    rw [show replaceFs (.map [(.str "a", .int 1)]) [(.str "b", .int 2)] =
        Except.ok (Val.map [(.str "a", .int 1), (.str "b", .int 2)]) from rfl] at h
    exact Except.noConfusion h⟩

/-- **C4 (amended)**: on a mapping, the nested `replace(obj, fs)` does not
route through the flat replace and performs no key validation: an entry
`(k, v)` with `k` absent from the string-keyed mapping and `v` neither a
mapping nor an `F` wrapper is silently appended to the result. -/
theorem nested_unknown_key_silently_added (m : List (Key × Val)) (k : String)
    (v : Val) (hm : strKeyed m = true) (habs : hasKey m (.str k) = false)
    (hF : Val.isFBox v = false) (hM : Val.isMapping v = false) :
    replaceFs (.map m) [(.str k, v)] = .ok (.map (m ++ [(.str k, v)])) := by
  have hhelper : recursiveReplaceHelper (.map m) (.str k) v = .ok v := by
    cases v <;> simp_all [recursiveReplaceHelper, Val.isFBox, Val.isMapping]
  have hstr : strKeyed (m ++ [(.str k, v)]) = true := by
    simp only [strKeyed, List.all_append, Bool.and_eq_true] at hm ⊢
    exact ⟨hm, by simp [Key.isStr]⟩
  have hu : dictUnion m [(.str k, v)] = m ++ [(.str k, v)] :=
    dictUnion_singleton_absent m (.str k) v habs
  simp [replaceFs, resolveEntries, hhelper, sampleStrKeyed, Key.isStr, hu,
    pyCallKwExpand, hstr, Except.bind, Except.map]

/-- **C4 witness**: the amended behavior at a concrete input. -/
theorem nested_unknown_key_silently_added_witness :
    replaceFs (.map [(.str "a", .int 1)]) [(.str "b", .int 2)] =
      .ok (.map [(.str "a", .int 1), (.str "b", .int 2)]) :=
  nested_unknown_key_silently_added [(.str "a", .int 1)] "b" (.int 2)
    rfl rfl rfl rfl

/-- **C5**: the flat mapping replace validates that every change key already
exists in the mapping: absent keyword keys are rejected with the
invalid-keys error naming the set of all offending keys at once, and
otherwise the result is a new mapping equal to the original with those
keys' values overwritten. -/
theorem flat_mapping_replace_key_validation (m : List (Key × Val))
    (kwargs : List (String × Val)) (hm : strKeyed m = true) :
    (extraKeys m kwargs ≠ [] →
      replaceKw (.map m) kwargs = .error (.invalidKeys (extraKeys m kwargs)))
    ∧ (extraKeys m kwargs = [] →
      replaceKw (.map m) kwargs = .ok (.map (overwriteEntries m kwargs))) := by
  constructor
  · intro h
    have hE : (extraKeys m kwargs).isEmpty = false := by
      cases hE : extraKeys m kwargs with
      | nil => exact absurd hE h
      | cons a l => rfl
    simp [replaceKw, sampleStrKeyed_of_strKeyed m hm, mappingReplaceKwEntries,
      hE, Except.map]
  · intro h
    simp [replaceKw, sampleStrKeyed_of_strKeyed m hm,
      mappingReplaceKwEntries_ok m kwargs hm h, Except.map]

/-- **C5 witness**: `replace({"a": 1, "b": 2, "c": 3}, d=5)` fails naming
`{"d"}`, and `replace({"a": 1, "b": 2, "c": 3}, c=4.0)` overwrites `c`. -/
theorem flat_mapping_replace_key_validation_witness :
    replaceKw (.map [(.str "a", .int 1), (.str "b", .int 2), (.str "c", .int 3)])
      [("d", .int 5)] = .error (.invalidKeys ["d"])
    ∧ replaceKw (.map [(.str "a", .int 1), (.str "b", .int 2), (.str "c", .int 3)])
      [("c", .float 4)] =
      .ok (.map [(.str "a", .int 1), (.str "b", .int 2), (.str "c", .float 4)]) :=
  ⟨(flat_mapping_replace_key_validation
      [(.str "a", .int 1), (.str "b", .int 2), (.str "c", .int 3)]
      [("d", .int 5)] rfl).1 (by decide),
   (flat_mapping_replace_key_validation
      [(.str "a", .int 1), (.str "b", .int 2), (.str "c", .int 3)]
      [("c", .float 4)] rfl).2 rfl⟩

set_option maxRecDepth 100000 in
set_option maxHeartbeats 1000000 in
unseal replaceFs resolveEntries recursiveReplaceHelper in
/-- **C6 counterexample**: for the mapping `{1: 2}` — hashable keys, as the
data model admits — `replace(x)` does not return a value equal to `x`: the
flat form matches no implementation (the sole pair fails the sampled
`Mapping[str, Any]` check) and the nested form with empty changes raises
`TypeError` from the `type(obj)(**dict(obj))` rebuild. -/
theorem replace_round_trip_cex :
    replaceKw (.map [(.int 1, .int 2)]) [] =
      .error (.notFoundLookup [.map [(.int 1, .int 2)]])
    ∧ replaceFs (.map [(.int 1, .int 2)]) [] =
      .error (.typeError "keywords must be strings") :=
  ⟨rfl, rfl⟩

/-- **C6 (amended)**: `replace(x)` with no changes, and `replace(x, {})` with
an empty nested-changes map, return a value equal to `x` for every record
and every string-keyed mapping; for mappings the flat result is moreover a
freshly constructed container, distinct from the input object. -/
theorem replace_round_trip (fsF : List (String × Bool × Val))
    (m : List (Key × Val)) (d : PyDict) (ctr : Nat)
    (hm : strKeyed m = true) (hd : strKeyed d.entries = true)
    (hctr : d.oid < ctr) :
    replaceKw (.dc fsF) [] = .ok (.dc fsF)
    ∧ replaceFs (.dc fsF) [] = .ok (.dc fsF)
    ∧ replaceKw (.map m) [] = .ok (.map m)
    ∧ replaceFs (.map m) [] = .ok (.map m)
    ∧ replaceKwAlloc d [] ctr = .ok (⟨ctr, d.entries⟩, ctr + 1)
    ∧ ctr ≠ d.oid := by
  refine ⟨?_, ?_, ?_, ?_, ?_, ?_⟩
  · simp [replaceKw, dcReplaceFields_nil, Except.map]
  · simp [replaceFs, resolveEntries, replaceKw, dcReplaceFields_nil, Except.bind,
      Except.map, sampleStrKeyed, pyCallKwExpand, strKeyed, asKwargs]
  · simp [replaceKw, sampleStrKeyed_of_strKeyed m hm,
      mappingReplaceKwEntries_ok m [] hm rfl, overwriteEntries_nil, Except.map]
  · have h1 : pyCallKwExpand (dictUnion m []) = .ok m := by
      rw [dictUnion_nil]
      simp [pyCallKwExpand, hm]
    simp [replaceFs, resolveEntries, Except.bind, Except.map, sampleStrKeyed, h1]
  · simp [replaceKwAlloc, mappingReplaceKwEntries_ok d.entries [] hd rfl,
      overwriteEntries_nil, pyDictCtor, Except.map]
  · omega

/-- **C6 witness**: the amended round trip at concrete inputs, with the
fresh container id differing from the input's id. -/
theorem replace_round_trip_witness :
    replaceKw (.dc [("x", true, .float 1)]) [] = .ok (.dc [("x", true, .float 1)])
    ∧ replaceFs (.dc [("x", true, .float 1)]) [] = .ok (.dc [("x", true, .float 1)])
    ∧ replaceKw (.map [(.str "a", .int 1)]) [] = .ok (.map [(.str "a", .int 1)])
    ∧ replaceFs (.map [(.str "a", .int 1)]) [] = .ok (.map [(.str "a", .int 1)])
    ∧ replaceKwAlloc ⟨0, [(.str "a", .int 1)]⟩ [] 1 =
      .ok (⟨1, [(.str "a", .int 1)]⟩, 2)
    ∧ (1 : Nat) ≠ (PyDict.mk 0 [(.str "a", .int 1)]).oid :=
  replace_round_trip [("x", true, .float 1)] [(.str "a", .int 1)]
    ⟨0, [(.str "a", .int 1)]⟩ 1 rfl rfl (by decide)

/-- **C7**: every flag-qualified operation with `NoFlag` equals the
corresponding unqualified operation — `replace`, `fields`, `asdict`,
`astuple`, `field_keys`, `field_values` and `field_items` alike (each
`NoFlag` implementation in `flag_compat.py` just forwards). -/
theorem noflag_ops_equal_unqualified (obj : Val) (kwargs : List (String × Val)) :
    replaceFlag .noFlag obj kwargs = replaceKw obj kwargs
    ∧ fieldsFlag .noFlag obj = fields obj
    ∧ asdictFlag .noFlag obj = asdict obj
    ∧ astupleFlag .noFlag obj = astuple obj
    ∧ fieldKeysFlag .noFlag obj = fieldKeys obj
    ∧ fieldValuesFlag .noFlag obj = fieldValues obj
    ∧ fieldItemsFlag .noFlag obj = fieldItems obj :=
  ⟨rfl, rfl, rfl, rfl, rfl, rfl, rfl⟩

theorem head?_filter_eq_find? {α : Type} (p : α → Bool) (l : List α) :
    (l.filter p).head? = l.find? p := by
  induction l with
  | nil => rfl
  | cons a t ih => cases h : p a <;> simp [List.filter_cons, List.find?, h, ih]

/-- `get_field(FilterRepr, obj, name)` on a dataclass, as a case split on the
first field named `name`. -/
theorem getFieldFlag_filterRepr_dc (fsF : List (String × Bool × Val)) (name : String) :
    getFieldFlag .filterRepr (.dc fsF) name =
      match fsF.find? (fun f => f.1 == name) with
      | none => .error (.fieldNotFound name)
      | some fd =>
        if fd.2.1 then .ok fd.2.2 else .error (.fieldIsReprFalse name) := by
  have hA : ((fsF.map (fun f => FieldD.mk f.1 f.2.1)).filter
        (fun fd => fd.name == name)).map (·.repr)
      = (fsF.filter (fun f => f.1 == name)).map (fun f => f.2.1) := by
    induction fsF with
    | nil => rfl
    | cons f rest ih => cases h : (f.1 == name) <;> simp [List.filter_cons, h, ih]
  have hB : (((fsF.map (fun f => FieldD.mk f.1 f.2.1)).filter
        (fun fd => fd.name == name)).map (·.repr)).head?
      = (fsF.find? (fun f => f.1 == name)).map (fun f => f.2.1) := by
    rw [hA, List.head?_map, head?_filter_eq_find?]
  cases hfind : fsF.find? (fun f => f.1 == name) with
  | none =>
    rw [hfind, Option.map_none'] at hB
    have hnil : ((fsF.map (fun f => FieldD.mk f.1 f.2.1)).filter
        (fun fd => fd.name == name)).map (·.repr) = [] := by
      cases hc : ((fsF.map (fun f => FieldD.mk f.1 f.2.1)).filter
          (fun fd => fd.name == name)).map (·.repr) with
      | nil => rfl
      | cons b t => rw [hc] at hB; exact Option.noConfusion hB
    simp [getFieldFlag, fields, Except.bind, hnil]
  | some fd =>
    rw [hfind, Option.map_some'] at hB
    rcases hc : ((fsF.map (fun f => FieldD.mk f.1 f.2.1)).filter
        (fun fd => fd.name == name)).map (·.repr) with _ | ⟨b, t⟩
    · rw [hc] at hB; exact Option.noConfusion hB
    · rw [hc] at hB
      have hb : b = fd.2.1 := Option.some.inj hB
      have hget : getField (.dc fsF) (.str name) = .ok fd.2.2 := by
        simp [getField, pyGetAttr, hfind]
      simp [getFieldFlag, fields, Except.bind, hc, hb, hget]

/-- **C8**: under the repr-filtering flag, `get_field(FilterRepr, obj, name)`
on a record raises the field-not-found error when no field is named `name`,
raises the distinct repr=False error when the field exists but is flagged
invisible, and returns the unqualified `get_field(obj, name)` when the
field exists with `repr=True`; the two failure kinds are distinguishable. -/
theorem filter_repr_get_field_trichotomy (fsF : List (String × Bool × Val))
    (name : String) :
    (fsF.find? (fun f => f.1 == name) = none →
      getFieldFlag .filterRepr (.dc fsF) name = .error (.fieldNotFound name))
    ∧ (∀ fd, fsF.find? (fun f => f.1 == name) = some fd → fd.2.1 = false →
      getFieldFlag .filterRepr (.dc fsF) name = .error (.fieldIsReprFalse name))
    ∧ (∀ fd, fsF.find? (fun f => f.1 == name) = some fd → fd.2.1 = true →
      getFieldFlag .filterRepr (.dc fsF) name = getField (.dc fsF) (.str name)
      ∧ getField (.dc fsF) (.str name) = .ok fd.2.2)
    ∧ Err.fieldNotFound name ≠ Err.fieldIsReprFalse name := by
  refine ⟨fun h => ?_, fun fd h hr => ?_, fun fd h hr => ⟨?_, ?_⟩, fun h => Err.noConfusion h⟩
  · rw [getFieldFlag_filterRepr_dc, h]
  · rw [getFieldFlag_filterRepr_dc, h]
    simp [hr]
  · have hget : getField (.dc fsF) (.str name) = .ok fd.2.2 := by
      simp [getField, pyGetAttr, h]
    rw [getFieldFlag_filterRepr_dc, h, hget]
    simp [hr]
  · simp [getField, pyGetAttr, h]

/-- **C8 witness**: on `Point(x=1.0, y=2.0)` with `y` flagged `repr=False`,
the three outcomes at `"z"`, `"y"` and `"x"`. -/
theorem filter_repr_get_field_trichotomy_witness :
    getFieldFlag .filterRepr (.dc [("x", true, .float 1), ("y", false, .float 2)]) "z" =
      .error (.fieldNotFound "z")
    ∧ getFieldFlag .filterRepr (.dc [("x", true, .float 1), ("y", false, .float 2)]) "y" =
      .error (.fieldIsReprFalse "y")
    ∧ getFieldFlag .filterRepr (.dc [("x", true, .float 1), ("y", false, .float 2)]) "x" =
      .ok (.float 1) :=
  ⟨(filter_repr_get_field_trichotomy [("x", true, .float 1), ("y", false, .float 2)] "z").1 rfl,
   (filter_repr_get_field_trichotomy [("x", true, .float 1), ("y", false, .float 2)] "y").2.1
      ("y", false, .float 2) rfl rfl,
   by
    rcases (filter_repr_get_field_trichotomy
        [("x", true, .float 1), ("y", false, .float 2)] "x").2.2.1
        ("x", true, .float 1) rfl rfl with ⟨h1, h2⟩
    exact h1.trans h2⟩

/-- **C9**: `asdict` on a mapping is a shallow copy into a dict: for every
mapping `m`, `asdict(m) == dict(m)` — the entries are those of `m` — and
the returned container is a newly constructed object, never
identity-equal to the input, even when the input is already a dict. -/
theorem asdict_mapping_shallow_fresh (d : PyDict) (ctr : Nat) (hctr : d.oid < ctr) :
    (asdictAlloc d ctr).1.entries = d.entries
    ∧ (asdictAlloc d ctr).1.oid ≠ d.oid
    ∧ ∀ m, asdict (.map m) = .ok m :=
  ⟨rfl, by simp [asdictAlloc, pyDictCtor]; omega, fun _ => rfl⟩

/-- **C9 witness**: the shallow fresh copy at a concrete dict. -/
theorem asdict_mapping_shallow_fresh_witness :
    (asdictAlloc ⟨0, [(.str "a", .int 1)]⟩ 1).1.entries = [(.str "a", .int 1)]
    ∧ (asdictAlloc ⟨0, [(.str "a", .int 1)]⟩ 1).1.oid ≠ 0
    ∧ asdict (.map [(.str "a", .int 1)]) = .ok [(.str "a", .int 1)] :=
  ⟨(asdict_mapping_shallow_fresh ⟨0, [(.str "a", .int 1)]⟩ 1 (by decide)).1,
   (asdict_mapping_shallow_fresh ⟨0, [(.str "a", .int 1)]⟩ 1 (by decide)).2.1,
   (asdict_mapping_shallow_fresh ⟨0, [(.str "a", .int 1)]⟩ 1 (by decide)).2.2
      [(.str "a", .int 1)]⟩

/-- **C10 counterexample**: for the mapping `{1: 2}` with a non-string key,
the flat `replace` does not raise `TypeError`: its sole pair fails the
sampled `Mapping[str, Any]` check of the registered signature, so dispatch
fails with `NotFoundLookupError` before the `type(obj)(**...)` rebuild is
reached. -/
theorem flat_replace_nonstring_key_cex :
    replaceKw (.map [(.int 1, .int 2)]) [("a", .int 3)] =
      .error (.notFoundLookup [.map [(.int 1, .int 2)], .int 3])
    ∧ replaceKw (.map [(.int 1, .int 2)]) [("a", .int 3)] ≠
      .error (.typeError "keywords must be strings") :=
  ⟨rfl, by
    intro h
    rw [show replaceKw (.map [(.int 1, .int 2)]) [("a", .int 3)] =
        Except.error (Err.notFoundLookup [Val.map [(.int 1, .int 2)], .int 3])
        from rfl] at h
    exact Err.noConfusion (Except.error.inj h)⟩

/-- **C10 (amended)**: both rebuild paths go through keyword expansion
`type(obj)(**...)`, which rejects every non-string key — but which path is
reached depends on the sampled dispatch check.  The nested form admits any
mapping (`Mapping[Hashable, Any]`), so once its entries resolve it raises
`TypeError` whenever the mapping has a non-string key.  The flat form's
signature is `Mapping[str, Any]`, checked by sampling the mapping's first
pair: a mapping whose first key is not a string fails dispatch with
`NotFoundLookupError`, while a mixed mapping whose first key is a string
matches, passes the extra-keys validation, and raises `TypeError` at the
rebuild. -/
theorem replace_nonstring_keys (m fs kw : List (Key × Val))
    (kwargs : List (String × Val)) (hm : strKeyed m = false) :
    (strKeyed fs = true → resolveEntries (.map m) fs = .ok kw →
      replaceFs (.map m) fs = .error (.typeError "keywords must be strings"))
    ∧ (sampleStrKeyed m = false →
      replaceKw (.map m) kwargs =
        .error (.notFoundLookup (Val.map m :: kwargs.map (·.2))))
    ∧ (sampleStrKeyed m = true → extraKeys m kwargs = [] →
      replaceKw (.map m) kwargs =
        .error (.typeError "keywords must be strings")) := by
  refine ⟨fun hfs hres => ?_, fun hs => ?_, fun hs hext => ?_⟩
  · have hfalse := strKeyed_dictUnion_false m kw hm
    simp [replaceFs, sampleStrKeyed_of_strKeyed fs hfs, hres, Except.bind,
      pyCallKwExpand, hfalse, Except.map]
  · simp [replaceKw, hs]
  · have hfalse := strKeyed_dictUnion_false m (strEntries kwargs) hm
    simp [replaceKw, hs, mappingReplaceKwEntries, hext, pyCallKwExpand,
      hfalse, Except.map]

set_option maxRecDepth 100000 in
set_option maxHeartbeats 1000000 in
unseal replaceFs resolveEntries recursiveReplaceHelper in
/-- **C10 witness**: the amended behavior at the concrete mappings `{1: 2}`
(first key non-string: nested `TypeError`, flat `NotFoundLookupError`) and
`{"a": 1, 1: 2}` (string first key: the flat form matches and raises
`TypeError` at the rebuild). -/
theorem replace_nonstring_keys_witness :
    replaceFs (.map [(.int 1, .int 2)]) [] =
      .error (.typeError "keywords must be strings")
    ∧ replaceKw (.map [(.int 1, .int 2)]) [("a", .int 3)] =
      .error (.notFoundLookup [.map [(.int 1, .int 2)], .int 3])
    ∧ replaceKw (.map [(.str "a", .int 1), (.int 1, .int 2)]) [] =
      .error (.typeError "keywords must be strings") :=
  ⟨(replace_nonstring_keys [(.int 1, .int 2)] [] [] [("a", .int 3)] rfl).1
      rfl rfl,
   (replace_nonstring_keys [(.int 1, .int 2)] [] [] [("a", .int 3)] rfl).2.1
      rfl,
   (replace_nonstring_keys [(.str "a", .int 1), (.int 1, .int 2)] [] [] []
      rfl).2.2 rfl rfl⟩
